import Mathlib

/-!
Shallow embedding of the ophyd positioner core
(`src/ophyd/controls/positioner.py` and `src/ophyd/utils/weak_method.py`).

Remote-value I/O, subscription dispatch and exception raising are embedded
as pure data: a method that performs effects is translated to a function
returning the successor state together with the list of abstract actions it
performed, and a method that can raise returns `Except`/`Option`.
Timestamps and positions are rationals (idealising Python floats); values
that `numpy` cannot subtract are a separate constructor of `PValue`.
-/

namespace Ophyd

/-- A position-like Python value: a numeric scalar, or something
`np.array(x) - np.array(y)` raises on (e.g. a string). -/
inductive PValue
  | num (q : ℚ)
  | other (tag : ℕ)
deriving DecidableEq, Repr

/-- `np.array(a) - np.array(b)` for scalar values: defined on numerics,
raising (modelled as `none`) otherwise. -/
def npSub : PValue → PValue → Option PValue
  | PValue.num a, PValue.num b => some (PValue.num (a - b))
  | _, _ => none

/-! ## MoveStatus (`positioner.py` lines 25–98) -/

/-- The attributes of a `MoveStatus` object. -/
structure MoveStatusS where
  target : PValue
  done : Bool
  success : Bool
  start_ts : ℚ
  finish_ts : Option ℚ
  finish_pos : Option PValue
deriving DecidableEq, Repr

/-- `MoveStatus.__init__(positioner, target, done=doneArg, start_ts)`:
the body sets `done = False`, `success = False`, `finish_ts = None`,
`finish_pos = None`; the `done` argument is never read. -/
def MoveStatus_init (target : PValue) (doneArg : Bool) (start_ts : ℚ) :
    MoveStatusS :=
  let _ := doneArg
  { target := target
    done := false
    success := false
    start_ts := start_ts
    finish_ts := none
    finish_pos := none }

/-- `MoveStatus._finished(success, timestamp)`: sets `done`, `success`,
`finish_ts`, and snapshots the positioner's current position into
`finish_pos`. -/
def MoveStatus_finished (st : MoveStatusS) (success : Bool) (ts : ℚ)
    (posNow : PValue) : MoveStatusS :=
  { st with
    done := true
    success := success
    finish_ts := some ts
    finish_pos := some posNow }

/-- `MoveStatus.error`: uses `finish_pos` when set, else the positioner's
current position, and returns `np.array(finish_pos) - np.array(target)`,
with `None` when the subtraction raises. -/
def MoveStatus_error (st : MoveStatusS) (currentPos : PValue) :
    Option PValue :=
  let finish_pos := st.finish_pos.getD currentPos
  npSub finish_pos st.target

/-- Follows the spec words for claim comparison: "error (target − final
position, where subtraction is defined)". -/
def MoveStatus_error_specWords (st : MoveStatusS) (currentPos : PValue) :
    Option PValue :=
  let finish_pos := st.finish_pos.getD currentPos
  npSub st.target finish_pos

/-! ## Trajectory iteration (`positioner.py` lines 140–189) -/

/-- The trajectory-related attributes of a `Positioner`: `_trajectory`
(a one-shot iterator, embedded as the list of not-yet-yielded points;
`none` when unset) and `_followed`. -/
structure TrajState where
  trajectory : Option (List PValue)
  followed : List PValue
deriving DecidableEq, Repr

/-- `Positioner.set_trajectory(traj)`: stores `iter(traj)` and clears the
followed history. -/
def set_trajectory (st : TrajState) (traj : List PValue) : TrajState :=
  let _ := st
  { trajectory := some traj, followed := [] }

/-- `Positioner.next_pos`: raises `ValueError` when the trajectory is
unset; on `StopIteration` returns `None`; otherwise records the yielded
point in `_followed` and returns it. -/
def next_pos (st : TrajState) : Except String (Option PValue × TrajState) :=
  match st.trajectory with
  | none => Except.error "Trajectory unset"
  | some [] => Except.ok (none, st)
  | some (p :: rest) =>
      Except.ok (some p, { trajectory := some rest
                           followed := st.followed ++ [p] })

/-- `Positioner.move_next()`: advances via `next_pos` and raises
`StopIteration('End of trajectory')` on the `None` sentinel; otherwise the
point is handed to `move`. -/
def move_next (st : TrajState) : Except String (PValue × TrajState) :=
  match next_pos st with
  | Except.error e => Except.error e
  | Except.ok (none, _) => Except.error "End of trajectory"
  | Except.ok (some p, st') => Except.ok (p, st')

/-! ## PVPositioner move/stop choreography (`positioner.py` lines 451–729)

The remote signals are embedded as abstract actions: each method below
returns the list of `PvAction`s it performs, in program order.  A
`put sig ack cb` action is `signal.put(..., wait=ack, callback=cb)`;
`reqDone s` is `self._run_subs(sub_type=self._SUB_REQ_DONE, success=s)`;
`resetReq` is `self._reset_sub(self._SUB_REQ_DONE)`. -/

/-- Which composed signal a write goes to. -/
inductive SigKind
  | setpoint
  | actuate
  | stopSig
deriving DecidableEq, Repr, Fintype

/-- One observable action performed by a positioner method. -/
inductive PvAction
  | reqDone (success : Bool)
  | resetReq
  | subDone
  | subStart
  | subscribeCb
  | subscribeStatus
  | put (sig : SigKind) (ack : Bool) (callback : Bool)
deriving DecidableEq, Repr

/-- The motion flags of a positioner: `_moving` and `_started_moving`. -/
structure MoveState where
  moving : Bool
  startedMoving : Bool
deriving DecidableEq, Repr, Fintype

/-- The optional-signal configuration of a `PVPositioner` (whether `act`,
`done` were given, and the `put_complete` flag). -/
structure PvConf where
  hasActuate : Bool
  hasDone : Bool
  putComplete : Bool
deriving DecidableEq, Repr, Fintype

/-- Body of `Positioner._done_moving` (lines 262–271): runs the
`SUB_DONE` subscription, then the `_SUB_REQ_DONE` subscription with
`success=True`, then resets `_SUB_REQ_DONE`. -/
def doneMovingActs : List PvAction :=
  [PvAction.subDone, PvAction.reqDone true, PvAction.resetReq]

/-- `PVPositioner._move_changed(value)` (lines 658–677): recomputes
`_moving = (value != done_val)`, latches `_started_moving` on the first
not-moving→moving transition (firing `SUB_START`), and, only when
`put_complete` is off, calls `_done_moving` on a moving→not-moving
transition. -/
def moveChanged {V : Type} [DecidableEq V] (putComplete : Bool) (doneVal : V)
    (st : MoveState) (value : V) : MoveState × List PvAction :=
  let wasMoving := st.moving
  let moving := decide (value ≠ doneVal)
  let started := !st.startedMoving && (!wasMoving && moving)
  let startedMoving := st.startedMoving || started
  let evs :=
    (if started then [PvAction.subStart] else []) ++
    (if !putComplete && (wasMoving && !moving) then doneMovingActs else [])
  (⟨moving, startedMoving⟩, evs)

/-- The actions of `Positioner.move` taken on the `wait=False` branch
(lines 212–252, for a subclass): fail and reset any pending
`_SUB_REQ_DONE` completion, subscribe `moved_cb` when given, then create
a `MoveStatus` and subscribe its `_finished`. -/
def positionerMoveNoWaitActs (hasMovedCb : Bool) : List PvAction :=
  [PvAction.reqDone false, PvAction.resetReq] ++
    (if hasMovedCb then [PvAction.subscribeCb] else []) ++
    [PvAction.subscribeStatus]

/-- `PVPositioner._move_async` (lines 619–638): clears `_started_moving`,
synthesises a started transition when put-completion is on with no done
signal, and issues the fire-and-forget writes, attaching the completion
callback to the actuate write when an actuate signal exists, else to the
setpoint write. -/
def moveAsync (conf : PvConf) (st : MoveState) : MoveState × List PvAction :=
  let st : MoveState := { st with startedMoving := false }
  let (st, evs) :=
    if !conf.hasDone && conf.putComplete then
      moveChanged conf.putComplete false st true
    else (st, [])
  let puts :=
    if conf.hasActuate then
      [PvAction.put SigKind.setpoint false false,
       PvAction.put SigKind.actuate false true]
    else
      [PvAction.put SigKind.setpoint false true]
  (st, evs ++ puts)

/-- `PVPositioner.move(position, wait=False)` (lines 648–656): first
`Positioner.move(..., wait=False)` builds the future, then `_move_async`
issues the writes. -/
def pvMoveNoWait (conf : PvConf) (st : MoveState) (hasMovedCb : Bool) :
    MoveState × List PvAction :=
  let pre := positionerMoveNoWaitActs hasMovedCb
  let (st', evs) := moveAsync conf st
  (st', pre ++ evs)

/-- Outcome of the blocking move path: completed, or one of the two
`TimeoutError`s raised at the end of `_move_wait_pc`. -/
inductive WaitOutcome
  | ok
  | errStillMoving
  | errNoMotion
deriving DecidableEq, Repr, Fintype

/-- `PVPositioner._move_wait_pc` (lines 568–601).  When there is no done
signal, `_done_val` was set to `False` at construction (line 542) and the
started/finished transitions are synthesised by calling `_move_changed`
directly; when there is a done signal, the state after the writes and the
settle sleep comes from the environment (`envAfter`).  Ends by either
calling `_done_moving` or raising one of two `TimeoutError`s. -/
def moveWaitPc (conf : PvConf) (st : MoveState) (envAfter : MoveState) :
    MoveState × List PvAction × WaitOutcome :=
  let hasDone := conf.hasDone
  let (st, evs1) :=
    if !hasDone then
      let (st, e1) := moveChanged conf.putComplete false st false
      let (st, e2) := moveChanged conf.putComplete false st true
      (st, e1 ++ e2)
    else (st, [])
  let puts :=
    if conf.hasActuate then
      [PvAction.put SigKind.setpoint false false,
       PvAction.put SigKind.actuate true false]
    else
      [PvAction.put SigKind.setpoint true false]
  let (st, evs2) :=
    if !hasDone then moveChanged conf.putComplete false st false
    else (envAfter, [])
  if st.startedMoving && !st.moving then
    (st, evs1 ++ puts ++ evs2 ++ doneMovingActs, WaitOutcome.ok)
  else if st.startedMoving && st.moving then
    (st, evs1 ++ puts ++ evs2, WaitOutcome.errStillMoving)
  else
    (st, evs1 ++ puts ++ evs2, WaitOutcome.errNoMotion)

/-- `PVPositioner._move_wait` (lines 603–617): clears `_started_moving`,
then either delegates to `_move_wait_pc`, or writes the setpoint with
`wait=True` followed, when an actuate signal exists, by the actuate value
with `wait=True`. -/
def moveWait (conf : PvConf) (st : MoveState) (envAfter : MoveState) :
    MoveState × List PvAction × WaitOutcome :=
  let st : MoveState := { st with startedMoving := false }
  if conf.putComplete then moveWaitPc conf st envAfter
  else
    let puts :=
      [PvAction.put SigKind.setpoint true false] ++
        (if conf.hasActuate then [PvAction.put SigKind.actuate true false]
         else [])
    (st, puts, WaitOutcome.ok)

/-- `PVPositioner.move(position, wait=True)` (lines 640–646): runs
`_move_wait`; an exception raised there propagates (only
`KeyboardInterrupt` is caught), so `Positioner.move` — which fails and
resets the pending `_SUB_REQ_DONE` completion — runs only when
`_move_wait` returned normally. -/
def pvMoveWait (conf : PvConf) (st : MoveState) (envAfter : MoveState) :
    MoveState × List PvAction × WaitOutcome :=
  let (st, evs, outcome) := moveWait conf st envAfter
  match outcome with
  | WaitOutcome.ok =>
      (st, evs ++ [PvAction.reqDone false, PvAction.resetReq], WaitOutcome.ok)
  | e => (st, evs, e)

/-- The `success` flag of the first `_SUB_REQ_DONE` dispatch in a trace.
Modelled from the spec: `dispatch` (§4.1) invokes every live subscriber
registered for the event kind, so a completion still subscribed when the
trace starts is resolved by the first `reqDone` dispatch, with that flag;
`_reset_sub` then clears the subscriber list. -/
def resolveFirst (tr : List PvAction) : Option Bool :=
  tr.findSome? fun a =>
    match a with
    | PvAction.reqDone s => some s
    | _ => none

/-- Whether an action is a write to a remote signal. -/
def isPut : PvAction → Bool
  | PvAction.put _ _ _ => true
  | _ => false

/-- The writes of a trace, in order. -/
def writesOf (tr : List PvAction) : List PvAction := tr.filter isPut

/-- Every write in the trace is preceded by a `reqDone false`
(failure-resolution of the pending completion) dispatch. -/
def invalidateBeforeWrites (tr : List PvAction) : Bool :=
  (List.range tr.length).all fun i =>
    !(isPut (tr.getD i PvAction.resetReq)) ||
      (List.range i).any fun j =>
        tr.getD j PvAction.resetReq == PvAction.reqDone false

/-- Follows the spec words for claim comparison (§4.3 write
choreography): with an actuate signal, the setpoint is written without
requiring acknowledgement and then the actuate signal with
acknowledgement required (wait path) or fire-and-forget with a completion
callback (no-wait path); without one, the setpoint write itself carries
the acknowledgement (wait path) or the callback (no-wait path). -/
def choreographySpecWords (hasActuate : Bool) (noWaitPath : Bool)
    (tr : List PvAction) : Bool :=
  if hasActuate then
    writesOf tr ==
      [PvAction.put SigKind.setpoint false false,
       PvAction.put SigKind.actuate (!noWaitPath) noWaitPath]
  else
    writesOf tr == [PvAction.put SigKind.setpoint (!noWaitPath) noWaitPath]

/-! ## stop (`positioner.py` lines 273–277 and 684–690) -/

/-- The positioner attributes `stop` touches: `_position` and the
`_SUB_REQ_DONE` subscriber list (ids of subscribed completion callbacks).
The subscriber-list semantics is modelled from the spec: §4.1 `dispatch`
delivers to every registered subscriber in order, and `unsubscribe_all`
for the kind clears the list. -/
structure PosState where
  position : PValue
  reqDoneSubs : List ℕ
deriving DecidableEq, Repr

/-- `Positioner.stop` (lines 273–277): dispatches `_SUB_REQ_DONE` with
`success=False` to every subscribed completion callback, then resets the
subscription.  Returns the successor state and the `(subscriber,
success)` deliveries made. -/
def positionerStop (st : PosState) : PosState × List (ℕ × Bool) :=
  ({ st with reqDoneSubs := [] }, st.reqDoneSubs.map fun i => (i, false))

/-- `PVPositioner.stop` (lines 684–690): raises `RuntimeError` when no
stop signal was configured; otherwise writes `stop_val` to the stop
signal fire-and-forget and delegates to `Positioner.stop`. -/
def pvPositionerStop (hasStop : Bool) (st : PosState) :
    Except String (PosState × List PvAction × List (ℕ × Bool)) :=
  if hasStop then
    let (st', delivered) := positionerStop st
    Except.ok (st', [PvAction.put SigKind.stopSig false false], delivered)
  else
    Except.error "Stop PV has not been set"

/-! ## The blocking polling loops of `Positioner.move`
(`positioner.py` lines 223–241) and the put-complete timeout fixup
(lines 575–578). -/

/-- `check_timeout()` (lines 226–227):
`timeout is not None and (time.time() - t0) > timeout`. -/
def checkTimeout (timeout : Option ℚ) (elapsed : ℚ) : Bool :=
  match timeout with
  | none => false
  | some t => decide (t < elapsed)

/-- The `time.sleep(0.05)` polling step, in seconds. -/
def pollInterval : ℚ := 5 / 100

/-- One `while not cond: time.sleep(0.05); if check_timeout(): raise`
loop.  `cond k` is the condition as observed at the k-th poll since `t0`
(elapsed time `pollInterval * k`).  Returns `some (some k)` when the
condition is met at poll `k`, `some none` when the loop raises
`TimeoutError`, and `none` when the fuel runs out (the loop is still
blocked). -/
def waitUntil (cond : ℕ → Bool) (timeout : Option ℚ) :
    ℕ → ℕ → Option (Option ℕ)
  | _, 0 => none
  | k, fuel + 1 =>
      if cond k then some (some k)
      else if checkTimeout timeout (pollInterval * (k + 1)) then some none
      else waitUntil cond timeout (k + 1) fuel

/-- Outcome of the blocking section of `Positioner.move(wait=True)`. -/
inductive PollOutcome
  | completedOk
  | timeoutNoMotion
  | timeoutMoving
deriving DecidableEq, Repr

/-- The two polling loops of `Positioner.move(wait=True)` (lines
223–241): wait for `_started_moving` to become true, then for `moving`
to become false, both against the same `t0`; either loop raises
`TimeoutError` when the shared deadline is exceeded. -/
def moveWaitLoops (started moving : ℕ → Bool) (timeout : Option ℚ)
    (fuel : ℕ) : Option PollOutcome :=
  match waitUntil started timeout 0 fuel with
  | none => none
  | some none => some PollOutcome.timeoutNoMotion
  | some (some k) =>
      match waitUntil (fun j => !moving j) timeout k fuel with
      | none => none
      | some none => some PollOutcome.timeoutMoving
      | some (some _) => some PollOutcome.completedOk

/-- The timeout fixup at the top of `_move_wait_pc` (lines 575–578):
`if timeout <= 0.0: timeout = 1e6`. -/
def pcEffectiveTimeout (t : ℚ) : ℚ :=
  if t ≤ 0 then 1000000 else t

/-! ## FunctionProxy (`utils/weak_method.py`) -/

/-- The attributes of a `FunctionProxy`: weak references are embedded as
`Option` handles (`none` once the referent is collected), `remove_cb` as
a flag recording whether the callback is still attached. -/
structure FunctionProxyS where
  method : Option ℕ
  target : Option ℕ
  remove_cb : Bool
  quiet : Bool
deriving DecidableEq, Repr

/-- The default of the `quiet` parameter of `FunctionProxy.__init__`. -/
def FunctionProxy_quiet_default : Bool := true

/-- `FunctionProxy._deleted(ref)`: clears `target` and `method`, and
invokes `remove_cb` (then detaches it) when it is still attached.
Returns the successor state and whether `remove_cb` was invoked. -/
def FunctionProxy_deleted (st : FunctionProxyS) : FunctionProxyS × Bool :=
  ({ st with method := none, target := none, remove_cb := false },
   st.remove_cb)

/-- Result of `FunctionProxy.__call__`. -/
inductive CallResult
  | invoked (withTarget : Bool)
  | returnedNone
  | raisedReferenceError
deriving DecidableEq, Repr

/-- `FunctionProxy.__call__`: when the referent is gone a
`ReferenceError` is raised internally and caught; with `quiet` the call
falls through (returning `None`), otherwise the `ReferenceError` is
re-raised.  When alive, the method is invoked (with the target prepended
for bound methods). -/
def FunctionProxy_call (st : FunctionProxyS) : CallResult :=
  match st.method with
  | none =>
      if st.quiet then CallResult.returnedNone
      else CallResult.raisedReferenceError
  | some _ =>
      match st.target with
      | none => CallResult.invoked false
      | some _ => CallResult.invoked true

/-- Whether an action is a write to the stop signal. -/
def isStopPut : PvAction → Bool
  | PvAction.put SigKind.stopSig _ _ => true
  | _ => false

/-! ## Theorems -/

/-- C1, counterexample: in put-completion mode with no done signal,
a second, blocking `move()` arriving while a first move's completion is
still pending writes the setpoint before any failure dispatch, and the
first `_SUB_REQ_DONE` dispatch of its trace carries `success=True` — the
pending completion of the first move is resolved successfully by the
second move, not failed before its writes. -/
theorem pv_move_wait_resolves_pending_success :
    resolveFirst
        (pvMoveWait ⟨false, false, true⟩ ⟨true, true⟩ ⟨false, false⟩).2.1 =
      some true ∧
    invalidateBeforeWrites
        (pvMoveWait ⟨false, false, true⟩ ⟨true, true⟩ ⟨false, false⟩).2.1 =
      false := by
  decide

/-- C1 (corrected): on the asynchronous (`wait=False`) path, a new
`move()` call fails any still-pending completion from a previous call —
its very first action is the `_SUB_REQ_DONE` dispatch with
`success=False` — before issuing any writes to the remote signals.  (The
blocking `wait=True` path of `PVPositioner.move` does not give this
guarantee, per the counterexample.) -/
theorem pv_move_nowait_invalidates_before_writes :
    ∀ (conf : PvConf) (st : MoveState) (hasMovedCb : Bool),
      invalidateBeforeWrites (pvMoveNoWait conf st hasMovedCb).2 = true ∧
      (pvMoveNoWait conf st hasMovedCb).2.head? =
        some (PvAction.reqDone false) := by
  decide

/-- C2, counterexample: for a completed move with target 3 and final
position 5, `error` is `5 - 3 = 2`, while the claimed
`target − final position` is `-2`. -/
theorem move_status_error_sign_flipped :
    MoveStatus_error
        (MoveStatus_finished (MoveStatus_init (PValue.num 3) false 0)
          true 10 (PValue.num 5)) (PValue.num 99) =
      some (PValue.num 2) ∧
    MoveStatus_error_specWords
        (MoveStatus_finished (MoveStatus_init (PValue.num 3) false 0)
          true 10 (PValue.num 5)) (PValue.num 99) =
      some (PValue.num (-2)) ∧
    PValue.num 2 ≠ PValue.num (-2) := by
  refine ⟨?_, ?_, ?_⟩
  · show npSub (PValue.num 5) (PValue.num 3) = some (PValue.num 2)
    show some (PValue.num (5 - 3)) = some (PValue.num 2)
    norm_num
  · show npSub (PValue.num 3) (PValue.num 5) = some (PValue.num (-2))
    show some (PValue.num (3 - 5)) = some (PValue.num (-2))
    norm_num
  · simp only [ne_eq, PValue.num.injEq]
    norm_num

/-- C2 (corrected): the `error` property equals final position − target
(not target − final position): after completion it is computed from the
snapshotted finish position, before completion it is approximated from
the positioner's current position, and it is `None` where the
subtraction is undefined. -/
theorem move_status_error_final_minus_target (st : MoveStatusS)
    (cur : PValue) :
    (∀ fp, st.finish_pos = some fp →
      MoveStatus_error st cur = npSub fp st.target) ∧
    (st.finish_pos = none → MoveStatus_error st cur = npSub cur st.target) ∧
    (∀ a b : ℚ, npSub (PValue.num a) (PValue.num b) =
      some (PValue.num (a - b))) ∧
    (∀ t v, npSub (PValue.other t) v = none ∧
      npSub v (PValue.other t) = none) := by
  refine ⟨?_, ?_, fun a b => rfl, fun t v => ⟨rfl, ?_⟩⟩
  · intro fp h
    simp [MoveStatus_error, h]
  · intro h
    simp [MoveStatus_error, h]
  · cases v <;> rfl

/-- C2, witness for the corrected claim at a concrete completed move. -/
theorem move_status_error_final_minus_target_witness :
    MoveStatus_error
        ⟨PValue.num 3, true, true, 0, some 10, some (PValue.num 5)⟩
        (PValue.num 1) =
      npSub (PValue.num 5) (PValue.num 3) :=
  (move_status_error_final_minus_target _ _).1 (PValue.num 5) rfl

/-- C3 (confirmed): for a `PVPositioner` with a done signal, every done
signal change recomputes `moving` as `value ≠ done_val`; starting from a
state where the started-moving latch is clear (as at the beginning of
every move), `SUB_START` is fired exactly on the not-moving→moving
transition, and `_done_moving` (which fires `SUB_DONE`) is triggered on
the moving→not-moving transition exactly when put-completion mode is
off. -/
theorem pv_move_changed_transitions {V : Type} [DecidableEq V]
    (putComplete : Bool) (doneVal value : V) (st : MoveState)
    (hfresh : st.startedMoving = false) :
    ((moveChanged putComplete doneVal st value).1.moving =
      decide (value ≠ doneVal)) ∧
    (PvAction.subStart ∈ (moveChanged putComplete doneVal st value).2 ↔
      (st.moving = false ∧
        (moveChanged putComplete doneVal st value).1.moving = true)) ∧
    (PvAction.subDone ∈ (moveChanged putComplete doneVal st value).2 ↔
      (putComplete = false ∧ st.moving = true ∧
        (moveChanged putComplete doneVal st value).1.moving = false)) := by
  cases h1 : decide (value ≠ doneVal) <;> cases h2 : st.moving <;>
    cases putComplete <;>
      simp [moveChanged, doneMovingActs, hfresh, h1, h2]

/-- C3, witness: a done-signal change from idle to moving fires
`SUB_START` and sets the moving flag. -/
theorem pv_move_changed_transitions_witness :
    PvAction.subStart ∈ (moveChanged false (false : Bool) ⟨false, false⟩ true).2 ∧
    (moveChanged false (false : Bool) ⟨false, false⟩ true).1.moving = true :=
  ⟨((pv_move_changed_transitions false false true ⟨false, false⟩ rfl).2.1).mpr
      (by decide),
   by decide⟩

/-- A polling loop with `timeout=None` never raises `TimeoutError`:
`check_timeout` is false whenever the timeout is `None`. -/
theorem waitUntil_none_ne_raise (cond : ℕ → Bool) :
    ∀ (fuel k : ℕ), waitUntil cond none k fuel ≠ some none := by
  intro fuel
  induction fuel with
  | zero => intro k h; simp [waitUntil] at h
  | succ n ih =>
      intro k h
      rw [waitUntil] at h
      by_cases hc : cond k = true
      · simp [hc] at h
      · simp [hc, checkTimeout] at h
        exact ih (k + 1) h

/-- C4, counterexample: with `timeout=0` (≤ 0) and motion never
starting, the blocking wait of `Positioner.move` raises the no-motion
`TimeoutError` at the very first poll — a non-positive timeout does not
disable the deadline. -/
theorem move_timeout_zero_raises :
    moveWaitLoops (fun _ => false) (fun _ => true) (some 0) 2 =
      some PollOutcome.timeoutNoMotion := by
  have hc : checkTimeout (some (0 : ℚ)) pollInterval = true := by
    simp only [checkTimeout, decide_eq_true_eq, pollInterval]
    norm_num
  rw [moveWaitLoops, waitUntil]
  simp [hc]

/-- A polling loop whose condition never becomes true raises
`TimeoutError` once the elapsed time exceeds the deadline `t`, for any
deadline that expires within the available polls. -/
theorem waitUntil_deadline_raises (cond : ℕ → Bool) (t : ℚ)
    (hcond : ∀ j, cond j = false) :
    ∀ (fuel k : ℕ), 1 ≤ fuel → t < pollInterval * ((k + fuel : ℕ) : ℚ) →
      waitUntil cond (some t) k fuel = some none := by
  intro fuel
  induction fuel with
  | zero => intro k h; omega
  | succ f ih =>
      intro k _ hdl
      by_cases hc : t < pollInterval * ((k : ℚ) + 1)
      · have hct : checkTimeout (some t) (pollInterval * ((k : ℚ) + 1)) =
            true := by
          simpa [checkTimeout] using hc
        rw [waitUntil]
        simp [hcond k, hct]
      · have hct : checkTimeout (some t) (pollInterval * ((k : ℚ) + 1)) =
            false := by
          simp [checkTimeout, hc]
        have hf1 : 1 ≤ f := by
          rcases Nat.eq_zero_or_pos f with h0 | h
          · subst h0
            push_cast at hdl
            exact absurd hdl hc
          · exact h
        rw [waitUntil]
        simp only [hcond k, Bool.false_eq_true, if_false, hct]
        exact ih (k + 1) hf1
          (by rw [show k + 1 + f = k + (f + 1) from by omega]; exact hdl)

/-- C4 (corrected): either polling wait of a blocking
`move(position, wait=True, timeout=t)` raises `TimeoutError` when it
exceeds a set deadline `t`: if motion never starts, the first wait
raises the no-motion `TimeoutError` once elapsed time passes `t`; if
motion starts but never stops, the second wait raises the still-moving
`TimeoutError` once elapsed time passes `t`.  `timeout=None` disables
the deadline entirely, while a timeout `t ≤ 0` does not disable it — if
motion has not started by the first poll the call raises the no-motion
`TimeoutError` immediately.  (Separately, the put-complete wait helper
replaces a timeout `t ≤ 0` of its blocking write by a 10⁶-second
deadline.) -/
theorem move_timeout_semantics :
    (∀ (started moving : ℕ → Bool) (fuel : ℕ) (o : PollOutcome),
        moveWaitLoops started moving none fuel = some o →
          o = PollOutcome.completedOk) ∧
    (∀ (t : ℚ) (started moving : ℕ → Bool) (fuel : ℕ),
        (∀ j, started j = false) → t < pollInterval * (fuel : ℚ) →
          1 ≤ fuel →
          moveWaitLoops started moving (some t) fuel =
            some PollOutcome.timeoutNoMotion) ∧
    (∀ (t : ℚ) (started moving : ℕ → Bool) (fuel : ℕ),
        started 0 = true → (∀ j, moving j = true) →
          t < pollInterval * (fuel : ℚ) → 1 ≤ fuel →
          moveWaitLoops started moving (some t) fuel =
            some PollOutcome.timeoutMoving) ∧
    (∀ (t : ℚ) (started moving : ℕ → Bool) (fuel : ℕ),
        t ≤ 0 → started 0 = false → 1 ≤ fuel →
          moveWaitLoops started moving (some t) fuel =
            some PollOutcome.timeoutNoMotion) ∧
    (∀ t : ℚ, t ≤ 0 → pcEffectiveTimeout t = 1000000) := by
  refine ⟨?_, ?_, ?_, ?_, ?_⟩
  · intro started moving fuel o h
    rw [moveWaitLoops] at h
    split at h
    · exact absurd h (by simp)
    · next heq => exact absurd heq (waitUntil_none_ne_raise started fuel 0)
    · next k heq =>
        split at h
        · exact absurd h (by simp)
        · next heq2 => exact absurd heq2 (waitUntil_none_ne_raise _ fuel k)
        · next m heq2 => exact (Option.some.inj h).symm
  · intro t started moving fuel hs hdl hfuel
    rw [moveWaitLoops]
    have h1 : waitUntil started (some t) 0 fuel = some none := by
      apply waitUntil_deadline_raises started t hs fuel 0 hfuel
      simpa using hdl
    rw [h1]
  · intro t started moving fuel h0 hmov hdl hfuel
    obtain ⟨f, rfl⟩ : ∃ f, fuel = f + 1 := by
      cases fuel with
      | zero => omega
      | succ f => exact ⟨f, rfl⟩
    rw [moveWaitLoops]
    have h1 : waitUntil started (some t) 0 (f + 1) = some (some 0) := by
      rw [waitUntil]
      simp [h0]
    rw [h1]
    dsimp only
    have h2 : waitUntil (fun j => !moving j) (some t) 0 (f + 1) =
        some none := by
      apply waitUntil_deadline_raises _ t (fun j => by simp [hmov j]) (f + 1)
        0 (by omega)
      simpa using hdl
    rw [h2]
  · intro t started moving fuel ht hs hfuel
    obtain ⟨f, rfl⟩ : ∃ f, fuel = f + 1 := by
      cases fuel with
      | zero => omega
      | succ f => exact ⟨f, rfl⟩
    have hc : checkTimeout (some t) pollInterval = true := by
      simp only [checkTimeout, decide_eq_true_eq, pollInterval]
      linarith
    rw [moveWaitLoops, waitUntil]
    simp [hs, hc]
  · intro t ht
    simp [pcEffectiveTimeout, ht]

/-- C4, witness for the corrected claim: a positive deadline of 0.1 s is
exceeded by both waits (no-motion and still-moving outcomes), a negative
timeout raises the no-motion error at the first poll, and a non-positive
timeout is mapped to the 10⁶-second deadline by the put-complete
helper. -/
theorem move_timeout_semantics_witness :
    moveWaitLoops (fun _ => false) (fun _ => true) (some (1 / 10)) 3 =
        some PollOutcome.timeoutNoMotion ∧
    moveWaitLoops (fun _ => true) (fun _ => true) (some (1 / 10)) 3 =
        some PollOutcome.timeoutMoving ∧
    moveWaitLoops (fun _ => false) (fun _ => true) (some (-1)) 1 =
        some PollOutcome.timeoutNoMotion ∧
    pcEffectiveTimeout (-1) = 1000000 :=
  ⟨move_timeout_semantics.2.1 (1 / 10) (fun _ => false) (fun _ => true) 3
      (fun _ => rfl) (by norm_num [pollInterval]) (by norm_num),
   move_timeout_semantics.2.2.1 (1 / 10) (fun _ => true) (fun _ => true) 3
      rfl (fun _ => rfl) (by norm_num [pollInterval]) (by norm_num),
   move_timeout_semantics.2.2.2.1 (-1) (fun _ => false) (fun _ => true) 1
      (by norm_num) rfl (le_refl 1),
   move_timeout_semantics.2.2.2.2 (-1) (by norm_num)⟩

/-- C5, counterexample: a `PVPositioner` in put-completion mode with a
done signal that never reports motion raises the no-motion
`TimeoutError` from its blocking move, and its trace contains no write
to the stop signal — the error reaches the caller without `stop()`
having been issued. -/
theorem pv_move_timeout_without_stop :
    (pvMoveWait ⟨false, true, true⟩ ⟨false, false⟩ ⟨false, false⟩).2.2 =
      WaitOutcome.errNoMotion ∧
    ((pvMoveWait ⟨false, true, true⟩ ⟨false, false⟩ ⟨false, false⟩).2.1.all
      fun a => !(isStopPut a)) = true := by
  decide

/-- C5 (corrected): whenever a timeout occurs during a blocking
`PVPositioner.move(wait=True)`, the error propagates synchronously to
the caller, but no `stop()` is issued first: the move's action trace
contains no write to the stop signal.  (Only `KeyboardInterrupt` is
caught and answered with a `stop()`.) -/
theorem pv_move_wait_error_no_stop (conf : PvConf) (st envAfter : MoveState)
    (h : (pvMoveWait conf st envAfter).2.2 ≠ WaitOutcome.ok) :
    ((pvMoveWait conf st envAfter).2.1.all fun a => !(isStopPut a)) = true := by
  revert h
  revert conf st envAfter
  decide

/-- C5, witness for the corrected claim at the no-motion timeout
scenario. -/
theorem pv_move_wait_error_no_stop_witness :
    ((pvMoveWait ⟨true, true, true⟩ ⟨false, false⟩ ⟨false, false⟩).2.1.all
      fun a => !(isStopPut a)) = true :=
  pv_move_wait_error_no_stop ⟨true, true, true⟩ ⟨false, false⟩ ⟨false, false⟩
    (by decide)

/-- C6, counterexample: on the non-put-complete blocking path with an
actuate signal, the setpoint is written with `wait=True` (acknowledgement
required), so the claimed uniform choreography — setpoint without
acknowledgement, then actuate with acknowledgement — does not hold. -/
theorem move_wait_choreography_nonuniform :
    choreographySpecWords true false
        (moveWait ⟨true, false, false⟩ ⟨false, false⟩ ⟨false, false⟩).2.1 =
      false ∧
    writesOf (moveWait ⟨true, false, false⟩ ⟨false, false⟩ ⟨false, false⟩).2.1 =
      [PvAction.put SigKind.setpoint true false,
       PvAction.put SigKind.actuate true false] := by
  decide

/-- C6 (corrected): the claimed write choreography holds on the
put-complete blocking path and on the no-wait path; the non-put-complete
blocking path instead writes the setpoint with acknowledgement required,
followed — when an actuate signal exists — by the actuate value, also
with acknowledgement required. -/
theorem pv_move_choreography (conf : PvConf) (st envAfter : MoveState) :
    (conf.putComplete = true →
      choreographySpecWords conf.hasActuate false
        (moveWait conf st envAfter).2.1 = true) ∧
    choreographySpecWords conf.hasActuate true (moveAsync conf st).2 = true ∧
    (conf.putComplete = false →
      writesOf (moveWait conf st envAfter).2.1 =
        [PvAction.put SigKind.setpoint true false] ++
          (if conf.hasActuate then [PvAction.put SigKind.actuate true false]
           else [])) := by
  revert conf st envAfter
  decide

/-- C6, witness for the corrected claim: the put-complete blocking path
and a non-put-complete no-wait path, both with an actuate signal. -/
theorem pv_move_choreography_witness :
    choreographySpecWords true false
        (moveWait ⟨true, false, true⟩ ⟨false, false⟩ ⟨false, false⟩).2.1 =
      true ∧
    choreographySpecWords true true
        (moveAsync ⟨true, false, false⟩ ⟨false, false⟩).2 = true :=
  ⟨(pv_move_choreography ⟨true, false, true⟩ ⟨false, false⟩ ⟨false, false⟩).1
      rfl,
   (pv_move_choreography ⟨true, false, false⟩ ⟨false, false⟩
      ⟨false, false⟩).2.1⟩

/-- C7, counterexample: a `PVPositioner` constructed without a stop
signal raises `RuntimeError` from `stop()` even with nothing in flight
(empty request-done subscriber list). -/
theorem pv_stop_without_signal_raises :
    pvPositionerStop false ⟨PValue.num 0, []⟩ =
      Except.error "Stop PV has not been set" := rfl

/-- C7 (corrected): calling `stop()` with nothing in flight does not
raise and leaves `position` unchanged on a base `Positioner` (it
delivers no completion and the state is unchanged) and on a
`PVPositioner` with a configured stop signal; a `PVPositioner` without a
configured stop signal raises `RuntimeError` unconditionally. -/
theorem positioner_stop_idempotent (st : PosState)
    (h : st.reqDoneSubs = []) :
    positionerStop st = (st, []) ∧
    (∃ r, pvPositionerStop true st = Except.ok r ∧
      r.1.position = st.position ∧ r.2.2 = []) ∧
    (∀ st' : PosState, ∃ e, pvPositionerStop false st' = Except.error e) := by
  obtain ⟨pos, subs⟩ := st
  simp only [PosState.mk.injEq] at h ⊢
  subst h
  exact ⟨rfl, ⟨_, rfl, rfl, rfl⟩, fun st' => ⟨_, rfl⟩⟩

/-- C7, witness for the corrected claim at a concrete idle positioner. -/
theorem positioner_stop_idempotent_witness :
    positionerStop ⟨PValue.num 7, []⟩ = (⟨PValue.num 7, []⟩, []) :=
  (positioner_stop_idempotent ⟨PValue.num 7, []⟩ rfl).1

/-- C8 (confirmed): after `set_trajectory`, each `next_pos` call yields
the next point, advancing the iterator and appending the yielded value
to the followed history; on an exhausted sequence `next_pos` returns the
`None` sentinel without failing and `move_next()` raises the
sequence-exhausted `StopIteration('End of trajectory')`. -/
theorem trajectory_iteration (st : TrajState) :
    (∀ p rest, st.trajectory = some (p :: rest) →
      next_pos st =
        Except.ok (some p, ⟨some rest, st.followed ++ [p]⟩)) ∧
    (st.trajectory = some [] → next_pos st = Except.ok (none, st)) ∧
    (st.trajectory = some [] →
      move_next st = Except.error "End of trajectory") ∧
    (∀ traj, (set_trajectory st traj).trajectory = some traj ∧
      (set_trajectory st traj).followed = []) := by
  refine ⟨?_, ?_, ?_, fun traj => ⟨rfl, rfl⟩⟩
  · intro p rest h
    simp [next_pos, h]
  · intro h
    simp [next_pos, h]
  · intro h
    simp [move_next, next_pos, h]

/-- C8, witness: one step and the exhausted sentinel on concrete
trajectories. -/
theorem trajectory_iteration_witness :
    next_pos ⟨some [PValue.num 1, PValue.num 2], []⟩ =
      Except.ok (some (PValue.num 1),
        ⟨some [PValue.num 2], [PValue.num 1]⟩) ∧
    move_next ⟨some [], [PValue.num 1]⟩ =
      Except.error "End of trajectory" :=
  ⟨(trajectory_iteration ⟨some [PValue.num 1, PValue.num 2], []⟩).1
      (PValue.num 1) [PValue.num 2] rfl,
   (trajectory_iteration ⟨some [], [PValue.num 1]⟩).2.2.1 rfl⟩

/-- C9 (confirmed): `MoveStatus.__init__` ignores its `done` argument —
the status is created with `done=False`, `success=False`,
`finish_ts=None`, `finish_pos=None` for every value of the argument —
and `_finished` is what sets `done`, fixing `success`, `finish_ts` and
the snapshotted `finish_pos`. -/
theorem move_status_init_ignores_done (target : PValue) (d d' : Bool)
    (ts : ℚ) (st : MoveStatusS) (s : Bool) (fts : ℚ) (p : PValue) :
    MoveStatus_init target d ts = MoveStatus_init target d' ts ∧
    (MoveStatus_init target d ts).done = false ∧
    (MoveStatus_init target d ts).success = false ∧
    (MoveStatus_init target d ts).finish_ts = none ∧
    (MoveStatus_init target d ts).finish_pos = none ∧
    (MoveStatus_finished st s fts p).done = true ∧
    (MoveStatus_finished st s fts p).success = s ∧
    (MoveStatus_finished st s fts p).finish_ts = some fts ∧
    (MoveStatus_finished st s fts p).finish_pos = some p :=
  ⟨rfl, rfl, rfl, rfl, rfl, rfl, rfl, rfl, rfl⟩

/-- C10 (confirmed): calling a `FunctionProxy` whose referent was
garbage-collected raises `ReferenceError` when `quiet=False` and returns
`None` without invoking anything when `quiet=True` (the constructor's
default); `remove_cb` is invoked exactly once, at collection time —
a second collection callback no longer has it attached. -/
theorem function_proxy_collected (st : FunctionProxyS)
    (h : st.method = none) :
    (st.quiet = true → FunctionProxy_call st = CallResult.returnedNone) ∧
    (st.quiet = false →
      FunctionProxy_call st = CallResult.raisedReferenceError) ∧
    FunctionProxy_quiet_default = true ∧
    (∀ st' : FunctionProxyS,
      (FunctionProxy_deleted st').2 = st'.remove_cb ∧
      (FunctionProxy_deleted (FunctionProxy_deleted st').1).2 = false) := by
  refine ⟨?_, ?_, rfl, fun st' => ⟨rfl, rfl⟩⟩
  · intro hq
    simp [FunctionProxy_call, h, hq]
  · intro hq
    simp [FunctionProxy_call, h, hq]

/-- C10, witness: a collected quiet proxy returns `None`. -/
theorem function_proxy_collected_witness :
    FunctionProxy_call ⟨none, none, false, true⟩ = CallResult.returnedNone :=
  (function_proxy_collected ⟨none, none, false, true⟩ rfl).1 rfl

end Ophyd
